import Mathlib

/-
  Shallow embedding of the FlexiPay ledger (src/database.py and src/config.py).

  Modelling choices:
  * Python Decimal money values are exact here: the source sets getcontext().prec
    to 10 and the columns are NUMERIC(10, 2), so every stored amount is an exact
    multiple of 0.01 and the additions and comparisons the ledger performs are
    exact.  A money value is embedded as its integer count of hundredths (Int),
    which preserves addition, negation and every comparison used by the code.
    The config fee rates are not stored money; PyNum below captures the runtime
    numeric type (float versus Decimal) of such values, with a rational payload.
  * Timestamps (datetime.now()) are modelled as an explicit Nat parameter passed by
    the caller; each operation receives the clock value at which it runs.
  * The database state is a record of the two tables (users, transactions) plus the
    SERIAL counter for transactions.id.
  * Each operation denotes the committed effect of one standalone call (the commit
    that the call itself issues).
  * A Python call either returns a value or lets an exception escape; PyOutcome
    captures that.  Note the conn handling slip in record_transaction: it pops
    conn_ext from kwargs and afterwards tests that the key conn_ext is absent from
    kwargs, which is then always true, so when admin_set_balance passes its own
    connection, record_transaction commits and closes that connection; the later
    conn.commit() in admin_set_balance then raises psycopg2.InterfaceError after
    both writes were already committed.  admin_set_balance therefore ends in a
    raised exception on the existing-user path, with both writes persisted.
-/

namespace FlexiPay

/-- A row of the users table (database.py init_db). -/
structure User where
  telegram_id : Int
  username : Option String
  first_name : Option String
  balance : Int
  created_at : Nat
deriving DecidableEq, Repr

/-- A row of the transactions table (database.py init_db). -/
structure Txn where
  id : Nat
  user_telegram_id : Int
  type : String
  amount : Int
  status : String
  pix_key : Option String
  mercado_pago_id : Option String
  admin_notes : Option String
  created_at : Nat
  updated_at : Nat
deriving DecidableEq, Repr

/-- The persistent store: both tables plus the SERIAL counter for transactions.id. -/
structure DB where
  users : List User
  transactions : List Txn
  next_txn_id : Nat
deriving DecidableEq, Repr

/-- Outcome of one Python call: a normal return or an uncaught exception escaping. -/
inductive PyOutcome (α : Type) where
  | ok (a : α)
  | raised (e : String)
deriving DecidableEq, Repr

/-- Status constant from config.py. -/
def STATUS_CONCLUIDO : String := "CONCLUÍDO"

/-- Status constant from config.py. -/
def STATUS_EM_ANALISE : String := "EM ANÁLISE"

/-- SELECT from users by primary key telegram_id. -/
def findUser (db : DB) (tid : Int) : Option User :=
  db.users.find? (fun u => u.telegram_id == tid)

/-- Embeds database.py get_balance: SELECT balance WHERE telegram_id; the stored
balance if a row exists, Decimal 0.00 otherwise. -/
def get_balance (db : DB) (tid : Int) : Int :=
  match findUser db tid with
  | some u => u.balance
  | none => 0

/-- Per-row effect of UPDATE users SET balance = b WHERE telegram_id = tid. -/
def setUserBalance (tid : Int) (b : Int) (u : User) : User :=
  if u.telegram_id == tid then { u with balance := b } else u

/-- Embeds database.py update_balance: reads the balance (absent user read as 0),
adds amount_change, refuses and leaves the store untouched when the result would be
negative, otherwise writes the new balance (the UPDATE matches at most the one row
with this telegram_id) and reports success. -/
def update_balance (db : DB) (tid : Int) (amount_change : Int) : Bool × DB :=
  let current_balance := get_balance db tid
  let new_balance := current_balance + amount_change
  if new_balance < 0 then (false, db)
  else (true, { db with users := db.users.map (setUserBalance tid new_balance) })

/-- The row built by database.py record_transaction: optional fields default to
NULL unless passed, created_at and updated_at are both stamped to the current
time, and the id is the SERIAL value the INSERT assigns. -/
def newTxn (id : Nat) (user_telegram_id : Int) (ty : String) (amount : Int)
    (status : String) (pix_key mercado_pago_id admin_notes : Option String)
    (now : Nat) : Txn :=
  { id := id, user_telegram_id := user_telegram_id, type := ty,
    amount := amount, status := status, pix_key := pix_key,
    mercado_pago_id := mercado_pago_id, admin_notes := admin_notes,
    created_at := now, updated_at := now }

/-- Embeds database.py record_transaction: INSERT INTO transactions RETURNING id,
with created_at and updated_at both stamped to the current time.  The INSERT is
subject to the foreign key on user_telegram_id, so it fails (the except branch
returns None) when the user does not exist. -/
def record_transaction (db : DB) (user_telegram_id : Int) (ty : String) (amount : Int)
    (status : String) (pix_key mercado_pago_id admin_notes : Option String)
    (now : Nat) : Option Nat × DB :=
  if (findUser db user_telegram_id).isSome then
    (some db.next_txn_id,
     { db with
        transactions := db.transactions ++
          [newTxn db.next_txn_id user_telegram_id ty amount status pix_key
            mercado_pago_id admin_notes now],
        next_txn_id := db.next_txn_id + 1 })
  else (none, db)

/-- Embeds database.py admin_set_balance.  For an absent user the UPDATE matches no
row (rowcount = 0) and the call returns False with nothing changed.  For an existing
user the UPDATE runs, record_transaction is called with conn_ext = conn; because
record_transaction pops conn_ext before testing for it, it commits the shared
connection (persisting both the balance overwrite and the AJUSTE_MANUAL row) and
closes it, so the subsequent conn.commit() in admin_set_balance raises
psycopg2.InterfaceError, and the rollback attempted by the except branch raises it
again, uncaught: the call raises with both writes already committed. -/
def admin_set_balance (db : DB) (user_telegram_id : Int) (new_balance : Int) (now : Nat) :
    PyOutcome Bool × DB :=
  if (findUser db user_telegram_id).isSome then
    let db1 := { db with users := db.users.map (setUserBalance user_telegram_id new_balance) }
    let r := record_transaction db1 user_telegram_id "AJUSTE_MANUAL" new_balance "CONCLUIDO"
      none none (some "Saldo definido manualmente.") now
    (PyOutcome.raised "InterfaceError", r.2)
  else (PyOutcome.ok false, db)

/-- Per-row effect of the UPDATE built by database.py update_transaction_status:
status and updated_at always change; mercado_pago_id changes exactly when the mp_id
keyword was passed, admin_notes exactly when the admin_notes keyword was passed.
A keyword argument is an Option (Option String): none when not passed, some v when
passed with value v (itself possibly NULL). -/
def applyStatusUpdate (transaction_id : Nat) (new_status : String)
    (mp_id admin_notes : Option (Option String)) (now : Nat) (t : Txn) : Txn :=
  if t.id == transaction_id then
    { t with status := new_status, updated_at := now,
             mercado_pago_id := mp_id.getD t.mercado_pago_id,
             admin_notes := admin_notes.getD t.admin_notes }
  else t

/-- Embeds database.py update_transaction_status: one UPDATE on the row whose id
matches (rowcount is not inspected, so the call reports True even when no row
matches). -/
def update_transaction_status (db : DB) (transaction_id : Nat) (new_status : String)
    (mp_id admin_notes : Option (Option String)) (now : Nat) : Bool × DB :=
  (true,
   { db with transactions :=
       db.transactions.map (applyStatusUpdate transaction_id new_status mp_id admin_notes now) })

/-- Embeds database.py get_transaction_details: SELECT * FROM transactions WHERE id. -/
def get_transaction_details (db : DB) (transaction_id : Nat) : Option Txn :=
  db.transactions.find? (fun t => t.id == transaction_id)

/-- Embeds database.py create_user_if_not_exists: INSERT ... ON CONFLICT DO NOTHING
with balance Decimal 0.00. -/
def create_user_if_not_exists (db : DB) (tid : Int) (username first_name : Option String)
    (now : Nat) : DB :=
  if (findUser db tid).isSome then db
  else
    { db with users := db.users ++
        [{ telegram_id := tid, username := username, first_name := first_name,
           balance := 0, created_at := now }] }

/-- Embeds database.py get_pending_withdrawals: WITHDRAWAL rows in EM ANÁLISE status. -/
def get_pending_withdrawals (db : DB) : List Txn :=
  db.transactions.filter (fun t => t.type == "WITHDRAWAL" && t.status == STATUS_EM_ANALISE)

/-- A Python numeric value tagged with its runtime type: a float or a Decimal.
Only the tag matters to the claims about representation; the payload carries the
numeric value. -/
inductive PyNum where
  | pfloat (v : Rat)
  | pdec (v : Rat)
deriving DecidableEq, Repr

/-- True exactly when the value is a Decimal (never a float). -/
def PyNum.isDecimal : PyNum → Bool
  | .pdec _ => true
  | .pfloat _ => false

/-- config.py line 58: the deposit fee rate is the float literal 0.11. -/
def TAXA_DEPOSITO_PERCENTUAL : PyNum := .pfloat (11 / 100)

/-- config.py line 59: the withdrawal fee rate is the float literal 0.025. -/
def TAXA_SAQUE_PERCENTUAL : PyNum := .pfloat (1 / 40)

/-- config.py line 60: the fixed withdrawal fee is the float literal 3.50. -/
def TAXA_SAQUE_FIXA : PyNum := .pfloat (7 / 2)

/-- Embeds database.py calculate_profits: SUM(amount) over FEE rows with status
CONCLUÍDO; SQL SUM over zero rows is NULL and the code then returns the float
literal 0.00, while with at least one row psycopg2 (register_decimal) delivers a
Decimal sum. -/
def calculate_profits (db : DB) : PyNum :=
  let rows := db.transactions.filter (fun t => t.type == "FEE" && t.status == STATUS_CONCLUIDO)
  if rows.isEmpty then .pfloat 0
  else .pdec (((rows.map (fun t => t.amount)).sum : Int) : Rat)

/-- The admin note that ties a FEE row to a withdrawal id (database.py line 225). -/
def feeNote (wid : Nat) : String := "Taxa referente ao saque ID " ++ toString wid

/-- Embeds database.py get_fee_for_withdrawal: the Decimal amount of the FEE row
whose admin_notes matches the note for this withdrawal id, or the float literal
0.00 when no row matches. -/
def get_fee_for_withdrawal (db : DB) (wid : Nat) : PyNum :=
  match db.transactions.find? (fun t => t.type == "FEE" && t.admin_notes == some (feeNote wid)) with
  | some t => .pdec (t.amount : Rat)
  | none => .pfloat 0

/-- Per-call fault model of the store: whether psycopg2.connect succeeds for this
call, and whether the SQL statements issued on the obtained connection succeed. -/
structure Store where
  connect_ok : Bool
  query_ok : Bool
deriving DecidableEq, Repr

/-- Running get_balance under the fault model: get_db_connection logs a failed
connect and re-raises psycopg2.OperationalError, which escapes get_balance; a
query error after connecting is caught and the sentinel Decimal 0.00 returned. -/
def get_balance_run (s : Store) (db : DB) (tid : Int) : PyOutcome Int :=
  if s.connect_ok then
    if s.query_ok then PyOutcome.ok (get_balance db tid) else PyOutcome.ok 0
  else PyOutcome.raised "OperationalError"

/-- Running update_balance under the fault model: a failed connect escapes; a
query error is caught, the transaction rolled back, and False returned. -/
def update_balance_run (s : Store) (db : DB) (tid : Int) (amount_change : Int) :
    PyOutcome Bool × DB :=
  if s.connect_ok then
    if s.query_ok then
      let r := update_balance db tid amount_change
      (PyOutcome.ok r.1, r.2)
    else (PyOutcome.ok false, db)
  else (PyOutcome.raised "OperationalError", db)

/-- Running record_transaction standalone under the fault model: a failed connect
escapes; a query error is caught, rolled back, and None returned. -/
def record_transaction_run (s : Store) (db : DB) (tid : Int) (ty : String) (amount : Int)
    (status : String) (now : Nat) : PyOutcome (Option Nat) × DB :=
  if s.connect_ok then
    if s.query_ok then
      let r := record_transaction db tid ty amount status none none none now
      (PyOutcome.ok r.1, r.2)
    else (PyOutcome.ok none, db)
  else (PyOutcome.raised "OperationalError", db)

/-- Running update_transaction_status under the fault model: a failed connect
escapes; a psycopg2 query error is caught, rolled back, and False returned. -/
def update_transaction_status_run (s : Store) (db : DB) (transaction_id : Nat)
    (new_status : String) (mp_id admin_notes : Option (Option String)) (now : Nat) :
    PyOutcome Bool × DB :=
  if s.connect_ok then
    if s.query_ok then update_transaction_status db transaction_id new_status mp_id admin_notes now
      |> fun r => (PyOutcome.ok r.1, r.2)
    else (PyOutcome.ok false, db)
  else (PyOutcome.raised "OperationalError", db)

/-- Running admin_set_balance under the fault model: a failed connect escapes; an
error on the UPDATE itself is caught, rolled back, and False returned; with no
store fault the behavior is admin_set_balance (which itself raises InterfaceError
on the existing-user path, see above). -/
def admin_set_balance_run (s : Store) (db : DB) (tid : Int) (new_balance : Int) (now : Nat) :
    PyOutcome Bool × DB :=
  if s.connect_ok then
    if s.query_ok then admin_set_balance db tid new_balance now
    else (PyOutcome.ok false, db)
  else (PyOutcome.raised "OperationalError", db)

/-- Running get_transaction_details under the fault model: a failed connect
escapes; a psycopg2 query error is caught and None returned. -/
def get_transaction_details_run (s : Store) (db : DB) (transaction_id : Nat) :
    PyOutcome (Option Txn) :=
  if s.connect_ok then
    if s.query_ok then PyOutcome.ok (get_transaction_details db transaction_id)
    else PyOutcome.ok none
  else PyOutcome.raised "OperationalError"

/-- The balance invariant of the spec: every stored balance is nonnegative. -/
def NonNegBalances (db : DB) : Prop :=
  ∀ u ∈ db.users, 0 ≤ u.balance

instance (db : DB) : Decidable (NonNegBalances db) := by
  unfold NonNegBalances; infer_instance

/-- Type-dependent sign convention of the spec: fees and withdrawals reduce the
balance, deposits and adjustments increase it. -/
def signedAmount (t : Txn) : Int :=
  if t.type = "WITHDRAWAL" ∨ t.type = "FEE" then -t.amount else t.amount

/-- Signed sum of the committed transaction rows of one user. -/
def txSum (db : DB) (tid : Int) : Int :=
  ((db.transactions.filter (fun t => t.user_telegram_id == tid)).map signedAmount).sum

/-- The reconciliation invariant of the spec: for every user, the signed sum of the
committed transactions equals the stored balance. -/
def Reconciled (db : DB) : Prop :=
  ∀ u ∈ db.users, txSum db u.telegram_id = u.balance

instance (db : DB) : Decidable (Reconciled db) := by
  unfold Reconciled; infer_instance

/-- Well-formedness of the SERIAL counter: every stored transaction id is below
the next id the store will assign. -/
def TxIdsOk (db : DB) : Prop :=
  ∀ t ∈ db.transactions, t.id < db.next_txn_id

instance (db : DB) : Decidable (TxIdsOk db) := by
  unfold TxIdsOk; infer_instance

/-- Sample user for concrete evaluations. -/
def user1 : User :=
  { telegram_id := 1, username := some "alice", first_name := some "Alice",
    balance := 0, created_at := 0 }

/-- Sample store holding exactly user1 with balance 0 and no transactions. -/
def db0 : DB := { users := [user1], transactions := [], next_txn_id := 1 }

/-- Sample store with no rows at all. -/
def dbEmpty : DB := { users := [], transactions := [], next_txn_id := 1 }

/-- Sample transaction row for concrete evaluations. -/
def tA : Txn :=
  { id := 7, user_telegram_id := 1, type := "DEPOSIT", amount := 10, status := "PAGO",
    pix_key := none, mercado_pago_id := none, admin_notes := none,
    created_at := 0, updated_at := 0 }

/-- Sample completed FEE transaction tied to withdrawal id 7. -/
def feeTxn : Txn :=
  { id := 1, user_telegram_id := 1, type := "FEE", amount := 225,
    status := STATUS_CONCLUIDO, pix_key := none, mercado_pago_id := none,
    admin_notes := some (feeNote 7), created_at := 0, updated_at := 0 }

/-- Sample store holding user1 and the FEE transaction feeTxn. -/
def dbFee : DB := { users := [user1], transactions := [feeTxn], next_txn_id := 2 }

end FlexiPay

namespace FlexiPay

/-- setUserBalance never changes the key of a row. -/
theorem setUserBalance_telegram_id (tid : Int) (b : Int) (u : User) :
    (setUserBalance tid b u).telegram_id = u.telegram_id := by
  unfold setUserBalance; split <;> rfl

/-- Finding a user in the rows written by an UPDATE of one balance commutes with
the per-row write. -/
theorem find?_users_map (l : List User) (f : User → User) (tid : Int)
    (hf : ∀ u, (f u).telegram_id = u.telegram_id) :
    (l.map f).find? (fun u => u.telegram_id == tid)
      = (l.find? (fun u => u.telegram_id == tid)).map f := by
  rw [List.find?_map]
  have hpf : ((fun u => u.telegram_id == tid) ∘ f) = (fun u => u.telegram_id == tid) := by
    funext u
    simp [Function.comp, hf u]
  rw [hpf]

/-- Reading the balance back after an UPDATE of this balance yields the written
value, for any store whose user rows are exactly the updated rows. -/
theorem get_balance_of_users_eq (db : DB) (tid : Int) (b : Int) (l : List User)
    (h : db.users = l.map (setUserBalance tid b))
    (hs : (l.find? (fun u => u.telegram_id == tid)).isSome) :
    get_balance db tid = b := by
  unfold get_balance findUser
  rw [h, find?_users_map _ _ _ (fun u => setUserBalance_telegram_id tid b u)]
  cases hfind : l.find? (fun u => u.telegram_id == tid) with
  | none => rw [hfind] at hs; simp at hs
  | some u =>
      have hp := List.find?_some hfind
      show (setUserBalance tid b u).balance = b
      unfold setUserBalance
      rw [if_pos hp]

/-- An UPDATE writing a nonnegative balance keeps every stored balance nonnegative. -/
theorem nonneg_map_setUserBalance (l : List User) (tid : Int) (b : Int) (hb : 0 ≤ b)
    (h : ∀ u ∈ l, 0 ≤ u.balance) : ∀ u ∈ l.map (setUserBalance tid b), 0 ≤ u.balance := by
  intro u hu
  rcases List.mem_map.mp hu with ⟨v, hv, rfl⟩
  unfold setUserBalance
  split
  · exact hb
  · exact h v hv

/-- Claim C10: admin_set_balance on a user id absent from the users table returns
False and leaves the store exactly as it was: no user row and no transaction row is
created or modified. -/
theorem admin_set_balance_absent_user (db : DB) (tid : Int) (nb : Int) (now : Nat)
    (h : findUser db tid = none) :
    admin_set_balance db tid nb now = (PyOutcome.ok false, db) := by
  unfold admin_set_balance
  rw [h]
  rfl

theorem admin_set_balance_absent_user_witness :
    admin_set_balance db0 2 5000 1 = (PyOutcome.ok false, db0) :=
  admin_set_balance_absent_user db0 2 5000 1 (by decide)

end FlexiPay

namespace FlexiPay

/-- Claim C1 counterexample: starting from the empty store, the reachable sequence
create_user_if_not_exists followed by admin_set_balance with a negative value
(here -5.00, that is -500 cents) commits a persisted negative balance;
admin_set_balance applies no nonnegativity check. -/
theorem negative_balance_reachable :
    NonNegBalances (create_user_if_not_exists dbEmpty 1 (some "alice") (some "Alice") 0) ∧
    get_balance (admin_set_balance
      (create_user_if_not_exists dbEmpty 1 (some "alice") (some "Alice") 0) 1 (-500) 1).2 1
      = -500 ∧
    ¬ NonNegBalances (admin_set_balance
      (create_user_if_not_exists dbEmpty 1 (some "alice") (some "Alice") 0) 1 (-500) 1).2 := by
  decide

/-- Claim C1 amended: every stored balance stays nonnegative across update_balance,
record_transaction, update_transaction_status and create_user_if_not_exists, and
across admin_set_balance whenever the value it is given is nonnegative;
admin_set_balance performs no such check itself. -/
theorem nonneg_balance_amended (db : DB) (tid : Int) (d nb amt : Int)
    (ty st0 ns : String) (pk mp an un fn : Option String)
    (mp2 an2 : Option (Option String)) (txid now : Nat)
    (h : NonNegBalances db) :
    NonNegBalances (update_balance db tid d).2 ∧
    NonNegBalances (record_transaction db tid ty amt st0 pk mp an now).2 ∧
    NonNegBalances (update_transaction_status db txid ns mp2 an2 now).2 ∧
    NonNegBalances (create_user_if_not_exists db tid un fn now) ∧
    (0 ≤ nb → NonNegBalances (admin_set_balance db tid nb now).2) := by
  refine ⟨?_, ?_, ?_, ?_, ?_⟩
  · unfold update_balance
    dsimp only
    split
    · exact h
    · next hlt =>
      intro u hu
      exact nonneg_map_setUserBalance db.users tid _ (le_of_not_lt hlt) h u hu
  · unfold record_transaction
    split
    · exact h
    · exact h
  · exact h
  · unfold create_user_if_not_exists
    split
    · exact h
    · intro u hu
      rcases List.mem_append.mp hu with h1 | h1
      · exact h u h1
      · rcases List.mem_singleton.mp h1 with rfl
        exact le_refl 0
  · intro hnb
    unfold admin_set_balance
    dsimp only
    split
    · unfold record_transaction
      split
      · exact nonneg_map_setUserBalance db.users tid nb hnb h
      · exact nonneg_map_setUserBalance db.users tid nb hnb h
    · exact h

theorem nonneg_balance_amended_witness :
    NonNegBalances db0 ∧ (0 : Int) ≤ 700 ∧
    NonNegBalances (update_balance db0 1 500).2 ∧
    NonNegBalances (admin_set_balance db0 1 700 1).2 := by
  refine ⟨by decide, by decide, ?_, ?_⟩
  · exact (nonneg_balance_amended db0 1 500 700 0 "D" "s" "n" none none none none none
      none none 0 0 (by decide)).1
  · exact (nonneg_balance_amended db0 1 500 700 0 "D" "s" "n" none none none none none
      none none 0 0 (by decide)).2.2.2.2 (by decide)

/-- Claim C2 counterexample: for a user id absent from the users table, a positive
adjust returns success yet persists nothing; the balance read back is still 0, not
the claimed new_balance of 10.00 (1000 cents). -/
theorem update_balance_absent_user_counterexample :
    (update_balance dbEmpty 1 1000).1 = true ∧
    get_balance (update_balance dbEmpty 1 1000).2 1 = 0 := by decide

/-- Claim C2 amended: adjust computes new_balance = current_balance + delta with an
absent user read as 0; if new_balance < 0 it returns failure and mutates nothing
(in particular adjust(id, -X) with X above the current balance always fails and
changes nothing); otherwise it returns success, touches no transaction row, and
persists new_balance when the user row exists, while for an absent user the UPDATE
matches no row and the store is left unchanged despite the success return. -/
theorem update_balance_adjust_spec (db : DB) (tid : Int) (d : Int) :
    (get_balance db tid + d < 0 → update_balance db tid d = (false, db)) ∧
    (0 ≤ get_balance db tid + d →
      (update_balance db tid d).1 = true ∧
      (update_balance db tid d).2.transactions = db.transactions ∧
      (update_balance db tid d).2.next_txn_id = db.next_txn_id ∧
      ((findUser db tid).isSome →
        get_balance (update_balance db tid d).2 tid = get_balance db tid + d) ∧
      (findUser db tid = none → (update_balance db tid d).2 = db)) := by
  constructor
  · intro hlt
    unfold update_balance
    dsimp only
    rw [if_pos hlt]
  · intro hge
    have hnl : ¬ (get_balance db tid + d < 0) := not_lt.mpr hge
    unfold update_balance
    dsimp only
    rw [if_neg hnl]
    refine ⟨rfl, rfl, rfl, ?_, ?_⟩
    · intro hs
      exact get_balance_of_users_eq _ tid _ db.users rfl hs
    · intro hn
      unfold findUser at hn
      have hall := List.find?_eq_none.mp hn
      have hmap : db.users.map (setUserBalance tid (get_balance db tid + d)) = db.users := by
        rw [List.map_congr_left, List.map_id]
        intro u hu
        unfold setUserBalance
        rw [if_neg (hall u hu)]
        rfl
      show ({ db with users := db.users.map (setUserBalance tid (get_balance db tid + d)) } : DB) = db
      rw [hmap]

theorem update_balance_adjust_spec_witness :
    get_balance db0 1 + (-500) < 0 ∧
    update_balance db0 1 (-500) = (false, db0) ∧
    (0 : Int) ≤ get_balance db0 1 + 500 ∧
    (update_balance db0 1 500).1 = true ∧
    get_balance (update_balance db0 1 500).2 1 = get_balance db0 1 + 500 := by
  refine ⟨by decide, ?_, by decide, ?_, ?_⟩
  · exact (update_balance_adjust_spec db0 1 (-500)).1 (by decide)
  · exact ((update_balance_adjust_spec db0 1 500).2 (by decide)).1
  · exact ((update_balance_adjust_spec db0 1 500).2 (by decide)).2.2.2.1 (by decide)

end FlexiPay

namespace FlexiPay

/-- applyStatusUpdate never changes the id of a row. -/
theorem applyStatusUpdate_id (txid : Nat) (ns : String) (mp an : Option (Option String))
    (now : Nat) (t : Txn) : (applyStatusUpdate txid ns mp an now t).id = t.id := by
  unfold applyStatusUpdate; split <;> rfl

/-- Claim C3: with user 1 present at balance 0, admin_set_balance(1, 50.00) commits
both the balance overwrite and the AJUSTE_MANUAL row, yet the call itself raises
InterfaceError instead of returning success, because record_transaction already
committed and closed the shared connection. -/
theorem admin_set_balance_commit_then_raise :
    (admin_set_balance db0 1 5000 1).1 = PyOutcome.raised "InterfaceError" ∧
    get_balance (admin_set_balance db0 1 5000 1).2 1 = 5000 ∧
    ((admin_set_balance db0 1 5000 1).2.transactions.map
      (fun t => (t.type, t.amount, t.status)))
      = [("AJUSTE_MANUAL", (5000 : Int), "CONCLUIDO")] := by decide

/-- Claim C4 counterexample: a reachable sequence of committed admin_set_balance
operations breaks the reconciliation invariant: after setting the balance of user 1
to 80.00 the store still reconciles, but setting it again to 200.00 leaves a
balance of 200.00 against a signed transaction sum of 280.00. -/
theorem reconciliation_broken_by_admin_set_balance :
    Reconciled db0 ∧
    Reconciled (admin_set_balance db0 1 8000 1).2 ∧
    ¬ Reconciled (admin_set_balance (admin_set_balance db0 1 8000 1).2 1 20000 2).2 := by
  decide

/-- Evaluation of admin_set_balance on an existing user: the balance row is
overwritten, one AJUSTE_MANUAL row of amount new_balance is appended, and the call
ends in the raised InterfaceError. -/
theorem admin_set_balance_eq_of_isSome (db : DB) (tid : Int) (nb : Int) (now : Nat)
    (h : (findUser db tid).isSome = true) :
    admin_set_balance db tid nb now
      = (PyOutcome.raised "InterfaceError",
         { users := db.users.map (setUserBalance tid nb),
           transactions := db.transactions ++
             [newTxn db.next_txn_id tid "AJUSTE_MANUAL" nb "CONCLUIDO" none none
               (some "Saldo definido manualmente.") now],
           next_txn_id := db.next_txn_id + 1 }) := by
  have hs1 : (findUser { db with users := db.users.map (setUserBalance tid nb) } tid).isSome
      = true := by
    unfold findUser at h ⊢
    dsimp only
    rw [find?_users_map _ _ _ (fun u => setUserBalance_telegram_id tid nb u)]
    cases hfind : db.users.find? (fun u => u.telegram_id == tid) with
    | none => rw [hfind] at h; simp at h
    | some u => rfl
  unfold admin_set_balance
  dsimp only
  rw [if_pos h]
  unfold record_transaction
  rw [if_pos hs1]

/-- Claim C4 amended: update_balance changes a balance while adding no transaction
row, and admin_set_balance sets the balance to new_balance while adding a
MANUAL_ADJUSTMENT row of amount new_balance, so it shifts the signed transaction
sum by new_balance; consequently it preserves the reconciliation invariant for a
user only when the prior signed sum of that user is zero. -/
theorem reconciliation_amended (db : DB) (tid : Int) (nb d : Int) (now : Nat)
    (h : (findUser db tid).isSome) :
    txSum (admin_set_balance db tid nb now).2 tid = txSum db tid + nb ∧
    get_balance (admin_set_balance db tid nb now).2 tid = nb ∧
    txSum (update_balance db tid d).2 tid = txSum db tid ∧
    (update_balance db tid d).2.transactions = db.transactions := by
  rw [admin_set_balance_eq_of_isSome db tid nb now h]
  refine ⟨?_, ?_, ?_, ?_⟩
  · unfold txSum
    dsimp only
    rw [List.filter_append, List.map_append, List.sum_append]
    have hfil : List.filter (fun t => t.user_telegram_id == tid)
        [newTxn db.next_txn_id tid "AJUSTE_MANUAL" nb "CONCLUIDO" none none
          (some "Saldo definido manualmente.") now]
        = [newTxn db.next_txn_id tid "AJUSTE_MANUAL" nb "CONCLUIDO" none none
          (some "Saldo definido manualmente.") now] := by
      simp [newTxn]
    rw [hfil]
    have hsig : signedAmount (newTxn db.next_txn_id tid "AJUSTE_MANUAL" nb "CONCLUIDO"
        none none (some "Saldo definido manualmente.") now) = nb := by
      unfold signedAmount newTxn
      dsimp only
      rw [if_neg (by decide)]
    simp [hsig]
  · exact get_balance_of_users_eq _ tid nb db.users rfl h
  · unfold update_balance
    dsimp only
    split <;> rfl
  · unfold update_balance
    dsimp only
    split <;> rfl

theorem reconciliation_amended_witness :
    (findUser db0 1).isSome = true ∧
    txSum (admin_set_balance db0 1 8000 1).2 1 = txSum db0 1 + 8000 ∧
    get_balance (admin_set_balance db0 1 8000 1).2 1 = 8000 := by
  refine ⟨by decide, ?_, ?_⟩
  · exact (reconciliation_amended db0 1 8000 0 1 (by decide)).1
  · exact (reconciliation_amended db0 1 8000 0 1 (by decide)).2.1

end FlexiPay

namespace FlexiPay

/-- Claim C5: recording a transaction for an existing user at time t1 and then
successfully updating its status at a later time t2 round-trips: reading the
transaction back by the returned id shows the new status, created_at is the
creation time, updated_at is the update time, and updated_at is strictly greater
than created_at. -/
theorem record_update_roundtrip (db : DB) (tid : Int) (ty : String) (amt : Int)
    (st0 ns : String) (pk mp an : Option String) (mp2 an2 : Option (Option String))
    (t1 t2 : Nat) (hwf : TxIdsOk db) (hu : (findUser db tid).isSome) (ht : t1 < t2) :
    (record_transaction db tid ty amt st0 pk mp an t1).1 = some db.next_txn_id ∧
    ∃ t, get_transaction_details
        (update_transaction_status (record_transaction db tid ty amt st0 pk mp an t1).2
          db.next_txn_id ns mp2 an2 t2).2 db.next_txn_id = some t ∧
      t.status = ns ∧ t.created_at = t1 ∧ t.updated_at = t2 ∧ t.created_at < t.updated_at := by
  have hrec : record_transaction db tid ty amt st0 pk mp an t1
      = (some db.next_txn_id,
         { db with
            transactions := db.transactions ++ [newTxn db.next_txn_id tid ty amt st0 pk mp an t1],
            next_txn_id := db.next_txn_id + 1 }) := by
    unfold record_transaction
    rw [if_pos hu]
  constructor
  · rw [hrec]
  · rw [hrec]
    unfold update_transaction_status get_transaction_details
    dsimp only
    rw [List.map_append, List.find?_append]
    have hnone : (db.transactions.map (applyStatusUpdate db.next_txn_id ns mp2 an2 t2)).find?
        (fun t => t.id == db.next_txn_id) = none := by
      rw [List.find?_eq_none]
      intro x hx
      rcases List.mem_map.mp hx with ⟨y, hy, rfl⟩
      have hid : (applyStatusUpdate db.next_txn_id ns mp2 an2 t2 y).id = y.id :=
        applyStatusUpdate_id _ _ _ _ _ _
      simp only [hid]
      have hlt := hwf y hy
      simp [Nat.ne_of_lt hlt]
    rw [hnone]
    have happ : applyStatusUpdate db.next_txn_id ns mp2 an2 t2
        (newTxn db.next_txn_id tid ty amt st0 pk mp an t1)
        = { id := db.next_txn_id, user_telegram_id := tid, type := ty, amount := amt,
            status := ns, pix_key := pk,
            mercado_pago_id := mp2.getD mp, admin_notes := an2.getD an,
            created_at := t1, updated_at := t2 } := by
      unfold applyStatusUpdate newTxn
      dsimp only
      rw [if_pos (by simp)]
    have hone : ([newTxn db.next_txn_id tid ty amt st0 pk mp an t1].map
        (applyStatusUpdate db.next_txn_id ns mp2 an2 t2)).find?
        (fun t => t.id == db.next_txn_id)
        = some (applyStatusUpdate db.next_txn_id ns mp2 an2 t2
            (newTxn db.next_txn_id tid ty amt st0 pk mp an t1)) := by
      rw [List.map_cons, List.map_nil]
      rw [List.find?_cons_of_pos]
      simp [applyStatusUpdate_id, newTxn]
    rw [hone, happ]
    exact ⟨_, rfl, rfl, rfl, rfl, ht⟩

theorem record_update_roundtrip_witness :
    TxIdsOk db0 ∧ (findUser db0 1).isSome = true ∧ 3 < 5 ∧
    (record_transaction db0 1 "DEPOSIT" 1000 "AGUARDANDO PAGAMENTO" none none none 3).1
      = some db0.next_txn_id ∧
    ∃ t, get_transaction_details
        (update_transaction_status
          (record_transaction db0 1 "DEPOSIT" 1000 "AGUARDANDO PAGAMENTO" none none none 3).2
          db0.next_txn_id "PAGO" (some (some "mp77")) none 5).2 db0.next_txn_id = some t ∧
      t.status = "PAGO" ∧ t.created_at = 3 ∧ t.updated_at = 5 ∧ t.created_at < t.updated_at := by
  refine ⟨by decide, by decide, by decide, ?_, ?_⟩
  · exact (record_update_roundtrip db0 1 "DEPOSIT" 1000 "AGUARDANDO PAGAMENTO" "PAGO"
      none none none (some (some "mp77")) none 3 5 (by decide) (by decide) (by decide)).1
  · exact (record_update_roundtrip db0 1 "DEPOSIT" 1000 "AGUARDANDO PAGAMENTO" "PAGO"
      none none none (some (some "mp77")) none 3 5 (by decide) (by decide) (by decide)).2

/-- Claim C6: update_transaction_status touches no user row and no SERIAL counter,
maps every transaction row through applyStatusUpdate, and applyStatusUpdate keeps
id, user_telegram_id, type, amount, created_at and pix_key of every row; a row
with a different id is entirely unchanged, and the optional fields change only
when the corresponding keyword was passed. -/
theorem update_transaction_status_frame (db : DB) (txid : Nat) (ns : String)
    (mp an : Option (Option String)) (now : Nat) (t : Txn) :
    (update_transaction_status db txid ns mp an now).2.users = db.users ∧
    (update_transaction_status db txid ns mp an now).2.next_txn_id = db.next_txn_id ∧
    (update_transaction_status db txid ns mp an now).2.transactions
      = db.transactions.map (applyStatusUpdate txid ns mp an now) ∧
    (applyStatusUpdate txid ns mp an now t).id = t.id ∧
    (applyStatusUpdate txid ns mp an now t).user_telegram_id = t.user_telegram_id ∧
    (applyStatusUpdate txid ns mp an now t).type = t.type ∧
    (applyStatusUpdate txid ns mp an now t).amount = t.amount ∧
    (applyStatusUpdate txid ns mp an now t).created_at = t.created_at ∧
    (applyStatusUpdate txid ns mp an now t).pix_key = t.pix_key ∧
    (t.id ≠ txid → applyStatusUpdate txid ns mp an now t = t) ∧
    (mp = none → (applyStatusUpdate txid ns mp an now t).mercado_pago_id = t.mercado_pago_id) ∧
    (an = none → (applyStatusUpdate txid ns mp an now t).admin_notes = t.admin_notes) := by
  refine ⟨rfl, rfl, rfl, applyStatusUpdate_id txid ns mp an now t, ?_, ?_, ?_, ?_, ?_, ?_, ?_, ?_⟩
  · unfold applyStatusUpdate; split <;> rfl
  · unfold applyStatusUpdate; split <;> rfl
  · unfold applyStatusUpdate; split <;> rfl
  · unfold applyStatusUpdate; split <;> rfl
  · unfold applyStatusUpdate; split <;> rfl
  · intro hne
    unfold applyStatusUpdate
    rw [if_neg]
    simp [hne]
  · intro hmp
    subst hmp
    unfold applyStatusUpdate
    split <;> rfl
  · intro han
    subst han
    unfold applyStatusUpdate
    split <;> rfl

theorem update_transaction_status_frame_witness :
    tA.id ≠ 5 ∧ applyStatusUpdate 5 "PAGO" none none 9 tA = tA ∧
    (applyStatusUpdate 7 "PAGO" none none 9 tA).amount = tA.amount := by
  refine ⟨by decide, ?_, ?_⟩
  · exact (update_transaction_status_frame db0 5 "PAGO" none none 9 tA).2.2.2.2.2.2.2.2.2.1
      (by decide)
  · exact (update_transaction_status_frame db0 7 "PAGO" none none 9 tA).2.2.2.2.2.2.1

end FlexiPay

namespace FlexiPay

/-- Claim C7 counterexample: a connect failure is re-raised by get_db_connection
and escapes get_balance and update_balance to the caller; moreover, with no store
fault at all, admin_set_balance on an existing user raises InterfaceError. -/
theorem store_error_propagation_counterexample :
    get_balance_run { connect_ok := false, query_ok := true } db0 1
      = PyOutcome.raised "OperationalError" ∧
    (update_balance_run { connect_ok := false, query_ok := true } db0 1 500).1
      = PyOutcome.raised "OperationalError" ∧
    (admin_set_balance_run { connect_ok := true, query_ok := true } db0 1 5000 1).1
      = PyOutcome.raised "InterfaceError" := by decide

/-- Claim C7 amended: once a connection is obtained, per-call query errors are
caught, logged and converted to a boolean, sentinel or empty result in every
operation; but a connection failure raises OperationalError out of every
operation (get_db_connection logs it and re-raises). -/
theorem store_error_handling_amended (db : DB) (tid : Int) (d nb amt : Int)
    (ty st0 ns : String) (mp2 an2 : Option (Option String)) (txid now : Nat)
    (sq sc : Store) (h1 : sq.connect_ok = true) (h2 : sq.query_ok = false)
    (h3 : sc.connect_ok = false) :
    get_balance_run sq db tid = PyOutcome.ok 0 ∧
    update_balance_run sq db tid d = (PyOutcome.ok false, db) ∧
    record_transaction_run sq db tid ty amt st0 now = (PyOutcome.ok none, db) ∧
    update_transaction_status_run sq db txid ns mp2 an2 now = (PyOutcome.ok false, db) ∧
    admin_set_balance_run sq db tid nb now = (PyOutcome.ok false, db) ∧
    get_transaction_details_run sq db txid = PyOutcome.ok none ∧
    get_balance_run sc db tid = PyOutcome.raised "OperationalError" ∧
    update_balance_run sc db tid d = (PyOutcome.raised "OperationalError", db) ∧
    record_transaction_run sc db tid ty amt st0 now
      = (PyOutcome.raised "OperationalError", db) ∧
    update_transaction_status_run sc db txid ns mp2 an2 now
      = (PyOutcome.raised "OperationalError", db) ∧
    admin_set_balance_run sc db tid nb now = (PyOutcome.raised "OperationalError", db) ∧
    get_transaction_details_run sc db txid = PyOutcome.raised "OperationalError" := by
  simp [get_balance_run, update_balance_run, record_transaction_run,
        update_transaction_status_run, admin_set_balance_run, get_transaction_details_run,
        h1, h2, h3]

theorem store_error_handling_amended_witness :
    ({ connect_ok := true, query_ok := false } : Store).connect_ok = true ∧
    get_balance_run { connect_ok := true, query_ok := false } db0 1 = PyOutcome.ok 0 ∧
    get_balance_run { connect_ok := false, query_ok := false } db0 1
      = PyOutcome.raised "OperationalError" := by
  refine ⟨by decide, ?_, ?_⟩
  · exact (store_error_handling_amended db0 1 0 0 0 "D" "s" "n" none none 0 0
      { connect_ok := true, query_ok := false } { connect_ok := false, query_ok := false }
      rfl rfl rfl).1
  · exact (store_error_handling_amended db0 1 0 0 0 "D" "s" "n" none none 0 0
      { connect_ok := true, query_ok := false } { connect_ok := false, query_ok := false }
      rfl rfl rfl).2.2.2.2.2.2.1

/-- Claim C8 counterexample: the configured deposit fee rate is a Python float, and
both reporting reads return the float literal 0.00, not a Decimal, when no rows
match. -/
theorem money_float_counterexample :
    TAXA_DEPOSITO_PERCENTUAL.isDecimal = false ∧
    TAXA_SAQUE_PERCENTUAL.isDecimal = false ∧
    TAXA_SAQUE_FIXA.isDecimal = false ∧
    (calculate_profits dbEmpty).isDecimal = false ∧
    (get_fee_for_withdrawal dbEmpty 1).isDecimal = false := by decide

/-- Claim C8 amended: stored balances and transaction amounts are Decimal, but the
configured fee rates are the float literals 0.11, 0.025 and 3.50, and the two
reporting reads return the float 0.00 default when no rows match, returning a
Decimal only when a matching row exists. -/
theorem money_representation_amended (db : DB) (wid : Nat) (t : Txn)
    (hfind : db.transactions.find?
        (fun x => x.type == "FEE" && x.admin_notes == some (feeNote wid)) = some t)
    (hne : (db.transactions.filter
        (fun x => x.type == "FEE" && x.status == STATUS_CONCLUIDO)).isEmpty = false) :
    TAXA_DEPOSITO_PERCENTUAL = PyNum.pfloat (11 / 100) ∧
    TAXA_SAQUE_PERCENTUAL = PyNum.pfloat (1 / 40) ∧
    TAXA_SAQUE_FIXA = PyNum.pfloat (7 / 2) ∧
    get_fee_for_withdrawal db wid = PyNum.pdec (t.amount : Rat) ∧
    (get_fee_for_withdrawal db wid).isDecimal = true ∧
    (calculate_profits db).isDecimal = true := by
  have hfee : get_fee_for_withdrawal db wid = PyNum.pdec (t.amount : Rat) := by
    unfold get_fee_for_withdrawal
    rw [hfind]
  refine ⟨rfl, rfl, rfl, hfee, ?_, ?_⟩
  · rw [hfee]; rfl
  · unfold calculate_profits
    dsimp only
    rw [if_neg]
    · rfl
    · simp [hne]

theorem money_representation_amended_witness :
    dbFee.transactions.find?
        (fun x => x.type == "FEE" && x.admin_notes == some (feeNote 7)) = some feeTxn ∧
    (dbFee.transactions.filter
        (fun x => x.type == "FEE" && x.status == STATUS_CONCLUIDO)).isEmpty = false ∧
    (get_fee_for_withdrawal dbFee 7).isDecimal = true ∧
    (calculate_profits dbFee).isDecimal = true := by
  refine ⟨by decide, by decide, ?_, ?_⟩
  · exact (money_representation_amended dbFee 7 feeTxn (by decide) (by decide)).2.2.2.2.1
  · exact (money_representation_amended dbFee 7 feeTxn (by decide) (by decide)).2.2.2.2.2

end FlexiPay
